import Mathlib

/-!
Shallow embedding of `Thunder/utils/custom_dl.py` (class `ByteStreamer`):
the metadata cache (`get_file_properties` / `generate_file_properties`),
the per-DC media-session manager (`generate_media_session`), the locator
resolver (`get_location`) and the chunked streamer (`yield_file`).

External collaborators (pyrogram transport, the `get_file_ids` decoder,
storage accessors) are modelled as oracle parameters; the async effects
(sleeps, session starts/stops, yields, load-counter updates) are recorded
as explicit event traces so the accounting and retry claims can be stated
over traces.
-/

namespace Thunder

/-! ## Python slice semantics

`chunk[a:b]`, `chunk[a:]` and `chunk[:b]` on a bytes object of length `n`:
negative indices count from the end, and all indices are clamped into
`[0, n]`, so slicing is total. -/

/-- Clamp a Python slice index `i` for a sequence of length `n` into `[0, n]`:
negative `i` counts from the end. -/
def clampIdx (n : Nat) (i : Int) : Nat :=
  if i < 0 then (max 0 ((n : Int) + i)).toNat else min i.toNat n

/-- Python `xs[a:b]`. -/
def pySlice (xs : List Nat) (a b : Int) : List Nat :=
  (xs.take (clampIdx xs.length b)).drop (clampIdx xs.length a)

/-- Python `xs[a:]`. -/
def pySliceFrom (xs : List Nat) (a : Int) : List Nat :=
  xs.drop (clampIdx xs.length a)

/-- Python `xs[:b]`. -/
def pySliceTo (xs : List Nat) (b : Int) : List Nat :=
  xs.take (clampIdx xs.length b)

/-- The slice selection of `yield_file` (custom_dl.py lines 273-280):
`part_count == 1` takes `chunk[first_part_cut:last_part_cut]`; else the
first part takes `chunk[first_part_cut:]`; else the last part takes
`chunk[:last_part_cut]`; every other part is the full chunk. -/
def sliceFor (partCount currentPart : Nat) (firstCut lastCut : Int)
    (chunk : List Nat) : List Nat :=
  if partCount = 1 then pySlice chunk firstCut lastCut
  else if currentPart = 1 then pySliceFrom chunk firstCut
  else if currentPart = partCount then pySliceTo chunk lastCut
  else chunk

/-! ## File descriptors (pyrogram `FileId`, fields used by custom_dl.py)

Only the three-way branch on `file_type` matters to `get_location`
(`CHAT_PHOTO`, `PHOTO`, everything else treated as a document), and only
the equality test with `CHAT_PHOTO_BIG` matters for `thumbnail_source`. -/

/-- The partition of `FileType` that `get_location` branches on. -/
inductive FType where
  | chatPhoto
  | photo
  | document
deriving DecidableEq, Repr

/-- The values of `ThumbnailSource` relevant to `get_location`; everything
other than `CHAT_PHOTO_BIG` behaves alike. -/
inductive TSource where
  | chatPhotoSmall
  | chatPhotoBig
  | otherSource
deriving DecidableEq, Repr

/-- The fields of a pyrogram `FileId` read by `ByteStreamer`. -/
structure FileIdD where
  dcId : Int
  fileType : FType
  mediaId : Int
  accessHash : Int
  fileReference : List Nat
  thumbnailSize : Nat
  chatId : Int
  chatAccessHash : Int
  volumeId : Int
  localId : Int
  thumbnailSource : TSource
deriving DecidableEq, Repr

/-! ## Metadata cache (`get_file_properties` / `generate_file_properties`)

`cached_file_ids` is a Python dict from message id to `FileId`; modelled as
an association list where assignment overwrites.  The external decoder
`get_file_ids` is an oracle `Int → Option FileIdD` (`None` models a falsy
return).  Results record the raised-or-returned value, the cache after the
call, and how many times the decoder was invoked. -/

/-- Dict lookup `cached_file_ids.get(message_id)`. -/
def cacheLookup (c : List (Int × FileIdD)) (k : Int) : Option FileIdD :=
  match c with
  | [] => none
  | (k', v) :: rest => if k' = k then some v else cacheLookup rest k

/-- Dict assignment `cached_file_ids[message_id] = file_id` (overwrites). -/
def cacheInsert (c : List (Int × FileIdD)) (k : Int) (v : FileIdD) :
    List (Int × FileIdD) :=
  match c with
  | [] => [(k, v)]
  | (k', v') :: rest =>
    if k' = k then (k, v) :: rest else (k', v') :: cacheInsert rest k v

/-- Outcome of a metadata resolution: the returned descriptor or the raised
`FileNotFound`, the cache afterwards, and the number of `get_file_ids`
invocations performed by the call. -/
structure ResolveResult where
  result : Except Unit FileIdD
  cache : List (Int × FileIdD)
  decoderCalls : Nat
deriving Repr

/-- `generate_file_properties` (custom_dl.py lines 67-91): call the decoder;
raise `FileNotFound` if it returns nothing, else cache and return. -/
def generate_file_properties (decode : Int → Option FileIdD)
    (cache : List (Int × FileIdD)) (messageId : Int) : ResolveResult :=
  match decode messageId with
  | none => ⟨.error (), cache, 1⟩
  | some f => ⟨.ok f, cacheInsert cache messageId f, 1⟩

/-- `get_file_properties` (custom_dl.py lines 41-65): return the cached
descriptor if present; otherwise call `generate_file_properties` (which
itself caches) and cache the result again. -/
def get_file_properties (decode : Int → Option FileIdD)
    (cache : List (Int × FileIdD)) (messageId : Int) : ResolveResult :=
  match cacheLookup cache messageId with
  | some f => ⟨.ok f, cache, 0⟩
  | none =>
    let g := generate_file_properties decode cache messageId
    match g.result with
    | .error e => ⟨.error e, g.cache, g.decoderCalls⟩
    | .ok f => ⟨.ok f, cacheInsert g.cache messageId f, g.decoderCalls⟩

/-! ## Locator resolver (`get_location`)

`utils.get_channel_id` belongs to pyrogram (an external collaborator), so
`get_location` is parameterised over it. -/

/-- The peer reference built for `CHAT_PHOTO` descriptors:
`InputPeerUser`, `InputPeerChat` or `InputPeerChannel`. -/
inductive Peer where
  | user (userId : Int) (accessHash : Int)
  | chat (chatId : Int)
  | channel (channelId : Int) (accessHash : Int)
deriving DecidableEq, Repr

/-- The location objects `get_location` can return:
`InputPeerPhotoFileLocation`, `InputPhotoFileLocation`,
`InputDocumentFileLocation`. -/
inductive Locator where
  | peerPhoto (peer : Peer) (volumeId localId : Int) (big : Bool)
  | photoLoc (id accessHash : Int) (fileReference : List Nat) (thumbSize : Nat)
  | documentLoc (id accessHash : Int) (fileReference : List Nat) (thumbSize : Nat)
deriving DecidableEq, Repr

/-- `get_location` (custom_dl.py lines 169-221), with pyrogram's
`utils.get_channel_id` passed in as `getChannelId`. -/
def get_location (getChannelId : Int → Int) (f : FileIdD) : Locator :=
  match f.fileType with
  | .chatPhoto =>
    let peer :=
      if f.chatId > 0 then Peer.user f.chatId f.chatAccessHash
      else if f.chatAccessHash = 0 then Peer.chat (-f.chatId)
      else Peer.channel (getChannelId f.chatId) f.chatAccessHash
    Locator.peerPhoto peer f.volumeId f.localId
      (f.thumbnailSource = TSource.chatPhotoBig)
  | .photo => Locator.photoLoc f.mediaId f.accessHash f.fileReference f.thumbnailSize
  | .document =>
    Locator.documentLoc f.mediaId f.accessHash f.fileReference f.thumbnailSize

/-! ## Session manager (`generate_media_session`)

A pyrogram `Session` is modelled by its constructor arguments (custom_dl.py
lines 118-124 and 154-160); auth keys are abstract `Nat` tokens.  The
authorization-import loop is driven by an oracle giving each attempt's
outcome; sleeps and session starts/stops are recorded as events. -/

/-- The constructor arguments of `Session(client, dc_id, auth_key,
test_mode, is_media=True)`. -/
structure MSession where
  dcId : Int
  authKey : Nat
  testMode : Bool
  isMedia : Bool
deriving DecidableEq, Repr

/-- What one iteration of the import loop does: the
`ExportAuthorization`/`ImportAuthorization` exchange succeeds, or raises
`AuthBytesInvalid`, `FloodWait(w)` or another `RPCError`. -/
inductive AttemptResult where
  | success
  | authBytesInvalid
  | floodWait (w : Nat)
  | rpcError
deriving DecidableEq, Repr

/-- How the import loop ends: `break` after a successful import at the
given attempt index, the `AuthBytesInvalid` re-raise at attempt index 5,
or the `for` loop running out of attempts without either. -/
inductive AuthStatus where
  | imported (attempt : Nat)
  | raisedAuthFailure
  | exhausted
deriving DecidableEq, Repr

/-- The `for attempt in range(6)` import loop (custom_dl.py lines 127-151),
called as `runAuth outcome 0 6`: on success break; on `AuthBytesInvalid`
raise if `attempt == 5`, else sleep `2 ** attempt`; on `FloodWait w` sleep
`w + 1`; on `RPCError` sleep `1`.  Returns the sleeps performed (in order)
and the loop's ending status. -/
def runAuth (outcome : Nat → AttemptResult) : Nat → Nat → List Nat × AuthStatus
  | _, 0 => ([], .exhausted)
  | attempt, remaining + 1 =>
    match outcome attempt with
    | .success => ([], .imported attempt)
    | .authBytesInvalid =>
      if attempt = 5 then ([], .raisedAuthFailure)
      else
        let p := runAuth outcome (attempt + 1) remaining
        (2 ^ attempt :: p.1, p.2)
    | .floodWait w =>
      let p := runAuth outcome (attempt + 1) remaining
      ((w + 1) :: p.1, p.2)
    | .rpcError =>
      let p := runAuth outcome (attempt + 1) remaining
      (1 :: p.1, p.2)

/-- The client state read and written by `generate_media_session`:
`client.media_sessions` plus the storage accessors `dc_id()`,
`auth_key()` and `test_mode()`. -/
structure ClientState where
  mediaSessions : List (Int × MSession)
  storageDcId : Int
  storageAuthKey : Nat
  storageTestMode : Bool
deriving DecidableEq, Repr

/-- `client.media_sessions.get(dc_id)`. -/
def sessionLookup (m : List (Int × MSession)) (dc : Int) : Option MSession :=
  match m with
  | [] => none
  | (k, s) :: rest => if k = dc then some s else sessionLookup rest dc

/-- `client.media_sessions[dc_id] = media_session` (overwrites). -/
def sessionInsert (m : List (Int × MSession)) (dc : Int) (s : MSession) :
    List (Int × MSession) :=
  match m with
  | [] => [(dc, s)]
  | (k, s') :: rest =>
    if k = dc then (dc, s) :: rest else (k, s') :: sessionInsert rest dc s

/-- Observable effects of `generate_media_session`. -/
inductive GmsEvent where
  | sessionStarted (s : MSession)
  | sessionStopped (s : MSession)
  | slept (n : Nat)
deriving DecidableEq, Repr

/-- `generate_media_session` (custom_dl.py lines 93-167).  `freshAuthKey`
stands for the key produced by `Auth(...).create()`; `outcome` drives
the import loop.  Returns the raised-or-returned session together with the new
client state, and the event trace (session starts/stops, sleeps). -/
def generate_media_session (st : ClientState) (freshAuthKey : Nat)
    (outcome : Nat → AttemptResult) (dcId : Int) :
    Except Unit (MSession × ClientState) × List GmsEvent :=
  match sessionLookup st.mediaSessions dcId with
  | some s => (.ok (s, st), [])
  | none =>
    if dcId ≠ st.storageDcId then
      let s : MSession := ⟨dcId, freshAuthKey, st.storageTestMode, true⟩
      let p := runAuth outcome 0 6
      let sleeps := p.1.map GmsEvent.slept
      match p.2 with
      | .raisedAuthFailure =>
        (.error (),
         GmsEvent.sessionStarted s :: sleeps ++ [GmsEvent.sessionStopped s])
      | _ =>
        (.ok (s, { st with mediaSessions := sessionInsert st.mediaSessions dcId s }),
         GmsEvent.sessionStarted s :: sleeps)
    else
      let s : MSession := ⟨dcId, st.storageAuthKey, st.storageTestMode, true⟩
      (.ok (s, { st with mediaSessions := sessionInsert st.mediaSessions dcId s }),
       [GmsEvent.sessionStarted s])

/-! ## Chunked streamer (`yield_file`)

`yield_file` is an async generator; it is modelled as a trace-producing
interpreter.  `fetch` is an oracle giving the result of the `i`-th
`upload.GetFile` call; `budget` models the consumer (`budget = 0`: the
consumer drains the stream; `budget = k + 1`: the consumer closes the
generator after receiving `k + 1` chunks, firing `GeneratorExit` at that
yield so the `finally` block runs).  `fuel` bounds the number of loop
iterations, needed only because an adversarial oracle answering `FloodWait`
forever would make the source loop forever. -/

/-- Result of one `media_session.send(upload.GetFile(...))` call: a
well-formed `upload.File` with its bytes, a response of an unexpected
type, a `FloodWait(w)`, or an `RPCError` / `TimeoutError`. -/
inductive FetchResult where
  | file (chunk : List Nat)
  | unexpected
  | floodWait (w : Nat)
  | rpcError
deriving DecidableEq, Repr

/-- Observable events of a `yield_file` run: `work_loads[index] += 1`,
`work_loads[index] -= 1`, a yielded buffer, a backoff sleep. -/
inductive StreamEvent where
  | inc
  | dec
  | yielded (b : List Nat)
  | slept (n : Nat)
deriving DecidableEq, Repr

/-- How a `yield_file` run ends.  `rateLimited` is a conceivable surfaced
outcome included so that its unreachability can be stated; the code
absorbs every `FloodWait` internally.  `fuelOut` is the model artifact of
exhausting `fuel` mid-loop (no exit has happened). -/
inductive StreamOutcome where
  | completed
  | cancelled
  | transportError
  | sessionError
  | rateLimited (w : Nat)
  | fuelOut
deriving DecidableEq, Repr

/-- The `while current_part <= part_count` fetch loop of `yield_file`
(custom_dl.py lines 257-293), producing the loop's event trace and how it
exits.  State: `currentPart`, `offset`, next fetch index `fi`, remaining
consumer `budget`, and `fuel`.  A `FloodWait w` sleeps `w + 1` and retries
with `currentPart` and `offset` unchanged; an `RPCError`/timeout re-raises;
an unexpected response or an empty chunk breaks out of the loop. -/
def streamLoop (fetch : Nat → FetchResult) (firstCut lastCut : Int)
    (partCount chunkSize : Nat) :
    Nat → Nat → Nat → Nat → Nat → List StreamEvent × StreamOutcome
  | _, _, _, _, 0 => ([], .fuelOut)
  | currentPart, offset, fi, budget, fuel + 1 =>
    if currentPart ≤ partCount then
      match fetch fi with
      | .unexpected => ([], .completed)
      | .rpcError => ([], .transportError)
      | .floodWait w =>
        let p := streamLoop fetch firstCut lastCut partCount chunkSize
          currentPart offset (fi + 1) budget fuel
        (StreamEvent.slept (w + 1) :: p.1, p.2)
      | .file chunk =>
        if chunk = [] then ([], .completed)
        else
          let b := sliceFor partCount currentPart firstCut lastCut chunk
          if budget = 1 then ([StreamEvent.yielded b], .cancelled)
          else
            let p := streamLoop fetch firstCut lastCut partCount chunkSize
              (currentPart + 1) (offset + chunkSize) (fi + 1) (budget - 1) fuel
            (StreamEvent.yielded b :: p.1, p.2)
    else ([], .completed)

/-- `yield_file` (custom_dl.py lines 223-296).  `work_loads[index] += 1`
runs before the `try` block — and before session and locator resolution
(`sessionOk = false` models `generate_media_session` or `get_location`
raising) — so on a resolution error the generator exits with no decrement.
The `finally` decrement fires on every true exit of the fetch loop
(completion, transport error, consumer cancellation), but not on the
`fuelOut` model artifact, where the loop is still running. -/
def yield_file (sessionOk : Bool) (fetch : Nat → FetchResult) (offset : Nat)
    (firstCut lastCut : Int) (partCount chunkSize : Nat) (budget fuel : Nat) :
    List StreamEvent × StreamOutcome :=
  if sessionOk then
    let p := streamLoop fetch firstCut lastCut partCount chunkSize 1 offset 0 budget fuel
    match p.2 with
    | .fuelOut => (StreamEvent.inc :: p.1, .fuelOut)
    | o => (StreamEvent.inc :: p.1 ++ [StreamEvent.dec], o)
  else ([StreamEvent.inc], .sessionError)

/-- Number of `work_loads[index] += 1` events in a trace. -/
def countInc (evs : List StreamEvent) : Nat :=
  evs.countP (fun e => e = StreamEvent.inc)

/-- Number of `work_loads[index] -= 1` events in a trace. -/
def countDec (evs : List StreamEvent) : Nat :=
  evs.countP (fun e => e = StreamEvent.dec)

/-- Number of yielded buffers in a trace. -/
def countYields (evs : List StreamEvent) : Nat :=
  evs.countP (fun e => match e with | StreamEvent.yielded _ => true | _ => false)

/-- A concrete 1024-byte chunk with pairwise-distinct bytes, for the
boundary-slicing scenario. -/
def chunk1024 : List Nat := List.range 1024

/-- A sample document descriptor for concrete instantiations. -/
def sampleFile : FileIdD :=
  ⟨2, .document, 10, 11, [1, 2, 3], 4, 0, 0, 0, 0, .otherSource⟩

/-- A profile-photo descriptor with the given owning-entity id and access
credential, for the locator-mapping scenarios. -/
def profilePhotoFile (cid hash : Int) : FileIdD :=
  ⟨2, .chatPhoto, 0, 0, [], 0, cid, hash, 5, 6, .chatPhotoBig⟩

/-- Pyrogram's `utils.get_channel_id` convention (an external collaborator),
used only to instantiate `get_location` concretely. -/
def channelIdConv (peerId : Int) : Int := -1000000000000 - peerId

/-- A fetch oracle that rate-limits the first call with wait 3 and then
serves a one-byte chunk, for the rate-limit retry scenario. -/
def floodFetch : Nat → FetchResult :=
  fun i => if i = 0 then FetchResult.floodWait 3 else FetchResult.file [9]

/-! ## Helper lemmas -/

theorem clampIdx_le (n : Nat) (i : Int) : clampIdx n i ≤ n := by
  unfold clampIdx
  split
  · omega
  · exact min_le_right _ _

theorem pySlice_length_le (xs : List Nat) (a b : Int) :
    (pySlice xs a b).length ≤ xs.length := by
  unfold pySlice
  calc ((xs.take (clampIdx xs.length b)).drop (clampIdx xs.length a)).length
      ≤ (xs.take (clampIdx xs.length b)).length := by
        rw [List.length_drop]; omega
    _ ≤ xs.length := by rw [List.length_take]; omega

theorem pySliceFrom_length_le (xs : List Nat) (a : Int) :
    (pySliceFrom xs a).length ≤ xs.length := by
  unfold pySliceFrom; rw [List.length_drop]; omega

theorem pySliceTo_length_le (xs : List Nat) (b : Int) :
    (pySliceTo xs b).length ≤ xs.length := by
  unfold pySliceTo; rw [List.length_take]; omega

theorem sliceFor_length_le (partCount currentPart : Nat) (firstCut lastCut : Int)
    (chunk : List Nat) :
    (sliceFor partCount currentPart firstCut lastCut chunk).length ≤ chunk.length := by
  unfold sliceFor
  split
  · exact pySlice_length_le ..
  · split
    · exact pySliceFrom_length_le ..
    · split
      · exact pySliceTo_length_le ..
      · exact le_refl _

theorem cacheLookup_cacheInsert_self (c : List (Int × FileIdD)) (k : Int)
    (v : FileIdD) : cacheLookup (cacheInsert c k v) k = some v := by
  induction c with
  | nil => simp [cacheInsert, cacheLookup]
  | cons hd tl ih =>
    obtain ⟨k', v'⟩ := hd
    by_cases h : k' = k
    · simp [cacheInsert, cacheLookup, h]
    · simp [cacheInsert, cacheLookup, h, ih]

theorem sessionLookup_sessionInsert_self (m : List (Int × MSession)) (dc : Int)
    (s : MSession) : sessionLookup (sessionInsert m dc s) dc = some s := by
  induction m with
  | nil => simp [sessionInsert, sessionLookup]
  | cons hd tl ih =>
    obtain ⟨k, s'⟩ := hd
    by_cases h : k = dc
    · simp [sessionInsert, sessionLookup, h]
    · simp [sessionInsert, sessionLookup, h, ih]

theorem runAuth_raised_authBytesInvalid (outcome : Nat → AttemptResult) :
    ∀ remaining attempt, (runAuth outcome attempt remaining).2 = .raisedAuthFailure →
      outcome 5 = .authBytesInvalid := by
  intro remaining
  induction remaining with
  | zero => intro attempt h; simp [runAuth] at h
  | succ r ih =>
    intro attempt h
    unfold runAuth at h
    cases ho : outcome attempt with
    | success => rw [ho] at h; simp at h
    | authBytesInvalid =>
      rw [ho] at h
      by_cases ha : attempt = 5
      · rw [ha] at ho; exact ho
      · simp [ha] at h; exact ih _ h
    | floodWait w => rw [ho] at h; simp at h; exact ih _ h
    | rpcError => rw [ho] at h; simp at h; exact ih _ h

theorem runAuth_exhausted_no_success (outcome : Nat → AttemptResult) :
    ∀ remaining attempt, (runAuth outcome attempt remaining).2 = .exhausted →
      ∀ i, attempt ≤ i → i < attempt + remaining → outcome i ≠ .success := by
  intro remaining
  induction remaining with
  | zero => intro attempt _ i h1 h2; omega
  | succ r ih =>
    intro attempt h i h1 h2
    unfold runAuth at h
    cases ho : outcome attempt with
    | success => rw [ho] at h; simp at h
    | authBytesInvalid =>
      rw [ho] at h
      by_cases ha : attempt = 5
      · simp [ha] at h
      · simp [ha] at h
        by_cases hi : i = attempt
        · rw [hi, ho]; intro hc; cases hc
        · exact ih (attempt + 1) h i (by omega) (by omega)
    | floodWait w =>
      rw [ho] at h; simp at h
      by_cases hi : i = attempt
      · rw [hi, ho]; intro hc; cases hc
      · exact ih (attempt + 1) h i (by omega) (by omega)
    | rpcError =>
      rw [ho] at h; simp at h
      by_cases hi : i = attempt
      · rw [hi, ho]; intro hc; cases hc
      · exact ih (attempt + 1) h i (by omega) (by omega)

theorem streamLoop_no_inc_dec (fetch : Nat → FetchResult) (firstCut lastCut : Int)
    (partCount chunkSize : Nat) :
    ∀ fuel currentPart offset fi budget,
      countInc (streamLoop fetch firstCut lastCut partCount chunkSize
        currentPart offset fi budget fuel).1 = 0
      ∧ countDec (streamLoop fetch firstCut lastCut partCount chunkSize
        currentPart offset fi budget fuel).1 = 0 := by
  intro fuel
  induction fuel with
  | zero => intro cp off fi budget; simp [streamLoop, countInc, countDec]
  | succ n ih =>
    intro cp off fi budget
    unfold streamLoop
    by_cases hcp : cp ≤ partCount
    · simp only [hcp, if_true]
      cases hf : fetch fi with
      | unexpected => simp [countInc, countDec]
      | rpcError => simp [countInc, countDec]
      | floodWait w =>
        have h := ih cp off (fi + 1) budget
        simp [countInc, countDec, List.countP_cons] at h ⊢
        exact h
      | file chunk =>
        by_cases hc : chunk = []
        · simp [hc, countInc, countDec]
        · simp only [hc, if_false]
          by_cases hb : budget = 1
          · simp [hb, countInc, countDec]
          · have h := ih (cp + 1) (off + chunkSize) (fi + 1) (budget - 1)
            simp [hb, countInc, countDec, List.countP_cons] at h ⊢
            exact h
    · simp [hcp, countInc, countDec]

theorem streamLoop_ne_rateLimited (fetch : Nat → FetchResult) (firstCut lastCut : Int)
    (partCount chunkSize : Nat) :
    ∀ fuel currentPart offset fi budget w,
      (streamLoop fetch firstCut lastCut partCount chunkSize
        currentPart offset fi budget fuel).2 ≠ .rateLimited w := by
  intro fuel
  induction fuel with
  | zero => intro cp off fi budget w; simp [streamLoop]
  | succ n ih =>
    intro cp off fi budget w
    unfold streamLoop
    by_cases hcp : cp ≤ partCount
    · simp only [hcp, if_true]
      cases hf : fetch fi with
      | unexpected => simp
      | rpcError => simp
      | floodWait w' => simpa using ih cp off (fi + 1) budget w
      | file chunk =>
        by_cases hc : chunk = []
        · simp [hc]
        · simp only [hc, if_false]
          by_cases hb : budget = 1
          · simp [hb]
          · simpa [hb] using ih (cp + 1) (off + chunkSize) (fi + 1) (budget - 1) w
    · simp [hcp]

theorem countYields_streamLoop_le (fetch : Nat → FetchResult) (firstCut lastCut : Int)
    (partCount chunkSize : Nat) :
    ∀ fuel currentPart offset fi budget,
      countYields (streamLoop fetch firstCut lastCut partCount chunkSize
        currentPart offset fi budget fuel).1 ≤ partCount + 1 - currentPart := by
  intro fuel
  induction fuel with
  | zero => intro cp off fi budget; simp [streamLoop, countYields]
  | succ n ih =>
    intro cp off fi budget
    unfold streamLoop
    by_cases hcp : cp ≤ partCount
    · simp only [hcp, if_true]
      cases hf : fetch fi with
      | unexpected => simp [countYields]
      | rpcError => simp [countYields]
      | floodWait w =>
        have h := ih cp off (fi + 1) budget
        simp only [countYields, List.countP_cons] at h ⊢
        simpa using h
      | file chunk =>
        by_cases hc : chunk = []
        · simp [hc, countYields]
        · simp only [hc, if_false]
          by_cases hb : budget = 1
          · simp [hb, countYields, List.countP_cons]; omega
          · have h := ih (cp + 1) (off + chunkSize) (fi + 1) (budget - 1)
            simp [hb, countYields, List.countP_cons] at h ⊢
            omega
    · simp [hcp, countYields]

/-! ## Claim theorems -/

/-- Claim C5: for every message id whose first resolution via
`get_file_properties` succeeded, every later call with the same id returns
the identical descriptor, leaves the cache unchanged, and does not
re-invoke the external decoder `get_file_ids` (zero decoder calls). -/
theorem get_file_properties_idempotent (decode : Int → Option FileIdD)
    (cache : List (Int × FileIdD)) (messageId : Int) (f : FileIdD)
    (h : (get_file_properties decode cache messageId).result = .ok f) :
    cacheLookup (get_file_properties decode cache messageId).cache messageId = some f
    ∧ get_file_properties decode (get_file_properties decode cache messageId).cache
        messageId
      = ⟨.ok f, (get_file_properties decode cache messageId).cache, 0⟩ := by
  cases hopt : cacheLookup cache messageId with
  | some g =>
    simp [get_file_properties, hopt] at h ⊢
    subst h
    simp [hopt]
  | none =>
    cases hd : decode messageId with
    | none => simp [get_file_properties, generate_file_properties, hopt, hd] at h
    | some g =>
      simp [get_file_properties, generate_file_properties, hopt, hd] at h ⊢
      subst h
      simp [cacheLookup_cacheInsert_self]

/-- Witness for C5: message id 7 resolves through the decoder once; the
second call returns the identical descriptor with zero decoder calls. -/
theorem get_file_properties_idempotent_witness :
    cacheLookup (get_file_properties (fun i => if i = 7 then some sampleFile else none)
      [] 7).cache 7 = some sampleFile
    ∧ get_file_properties (fun i => if i = 7 then some sampleFile else none)
        (get_file_properties (fun i => if i = 7 then some sampleFile else none) [] 7).cache 7
      = ⟨.ok sampleFile,
         (get_file_properties (fun i => if i = 7 then some sampleFile else none) [] 7).cache,
         0⟩ :=
  get_file_properties_idempotent (fun i => if i = 7 then some sampleFile else none)
    [] 7 sampleFile (by rfl)

/-- Claim C6: for every message id for which the external decoder returns
nothing, `generate_file_properties` (and `get_file_properties` on a cache
miss) fails with `FileNotFound` and the cache is returned unchanged — no
entry for that id is created. -/
theorem get_file_properties_not_found (decode : Int → Option FileIdD)
    (cache : List (Int × FileIdD)) (messageId : Int)
    (h : decode messageId = none) :
    generate_file_properties decode cache messageId = ⟨.error (), cache, 1⟩
    ∧ (cacheLookup cache messageId = none →
       get_file_properties decode cache messageId = ⟨.error (), cache, 1⟩) := by
  constructor
  · simp [generate_file_properties, h]
  · intro hc
    simp [get_file_properties, generate_file_properties, h, hc]

/-- Witness for C6: a decoder that returns nothing makes both entry points
fail with the error and leave the empty cache empty. -/
theorem get_file_properties_not_found_witness :
    generate_file_properties (fun _ => none) [] 7 = ⟨.error (), [], 1⟩
    ∧ get_file_properties (fun _ => none) [] 7 = ⟨.error (), [], 1⟩ :=
  ⟨(get_file_properties_not_found (fun _ => none) [] 7 rfl).1,
   (get_file_properties_not_found (fun _ => none) [] 7 rfl).2 rfl⟩

/-- Claim C7: `get_location` maps a profile-photo descriptor to a peer-photo
locator whose peer is a user reference when the owning id is positive, a
basic-group reference with negated id when the owning id is negative with
zero credential, and a channel reference with the id transformed by the
platform convention when the owning id is negative with non-zero
credential; photo and document descriptors map to photo and document
locators of identical shape keyed by media id, access hash, file reference
and thumbnail size. -/
theorem get_location_mapping (getChannelId : Int → Int) (f : FileIdD) :
    (f.fileType = .chatPhoto →
       (f.chatId > 0 →
         get_location getChannelId f
           = .peerPhoto (.user f.chatId f.chatAccessHash) f.volumeId f.localId
               (f.thumbnailSource = TSource.chatPhotoBig))
       ∧ (f.chatId < 0 → f.chatAccessHash = 0 →
         get_location getChannelId f
           = .peerPhoto (.chat (-f.chatId)) f.volumeId f.localId
               (f.thumbnailSource = TSource.chatPhotoBig))
       ∧ (f.chatId < 0 → f.chatAccessHash ≠ 0 →
         get_location getChannelId f
           = .peerPhoto (.channel (getChannelId f.chatId) f.chatAccessHash)
               f.volumeId f.localId (f.thumbnailSource = TSource.chatPhotoBig)))
    ∧ (f.fileType = .photo →
       get_location getChannelId f
         = .photoLoc f.mediaId f.accessHash f.fileReference f.thumbnailSize)
    ∧ (f.fileType = .document →
       get_location getChannelId f
         = .documentLoc f.mediaId f.accessHash f.fileReference f.thumbnailSize) := by
  refine ⟨fun hft => ⟨fun hpos => ?_, fun hneg hz => ?_, fun hneg hnz => ?_⟩,
    fun hft => ?_, fun hft => ?_⟩
  · simp [get_location, hft, hpos]
  · have hng : ¬ f.chatId > 0 := by omega
    simp [get_location, hft, hng, hz]
  · have hng : ¬ f.chatId > 0 := by omega
    simp [get_location, hft, hng, hnz]
  · simp [get_location, hft]
  · simp [get_location, hft]

/-- Witness for C7, the spec scenarios: owning id `+7` gives a user
reference, `-7` with credential `0` a basic-group reference with id `7`,
`-7` with credential `99` a channel reference with the transformed id. -/
theorem get_location_mapping_witness :
    get_location channelIdConv (profilePhotoFile 7 3)
      = .peerPhoto (.user 7 3) 5 6 true
    ∧ get_location channelIdConv (profilePhotoFile (-7) 0)
      = .peerPhoto (.chat 7) 5 6 true
    ∧ get_location channelIdConv (profilePhotoFile (-7) 99)
      = .peerPhoto (.channel (channelIdConv (-7)) 99) 5 6 true := by
  refine ⟨?_, ?_, ?_⟩
  · exact ((get_location_mapping channelIdConv (profilePhotoFile 7 3)).1 rfl).1
      (by decide)
  · exact (((get_location_mapping channelIdConv (profilePhotoFile (-7) 0)).1 rfl).2.1
      (by decide) rfl)
  · exact (((get_location_mapping channelIdConv (profilePhotoFile (-7) 99)).1 rfl).2.2
      (by decide) (by decide))

/-- Claim C2: with `AuthBytesInvalid` on all 6 attempts the session is
stopped and `generate_media_session` fails, after backoff sleeps
1, 2, 4, 8, 16; with success on attempt index 5 the session is returned
usable (cached in the map) and exactly the 5 backoff sleeps 1, 2, 4, 8, 16
have occurred. -/
theorem generate_media_session_retry_exhaustion :
    (runAuth (fun _ => AttemptResult.authBytesInvalid) 0 6
       = ([1, 2, 4, 8, 16], .raisedAuthFailure)
     ∧ generate_media_session ⟨[], 1, 7, false⟩ 42
         (fun _ => AttemptResult.authBytesInvalid) 2
       = (.error (),
          [.sessionStarted ⟨2, 42, false, true⟩, .slept 1, .slept 2, .slept 4,
           .slept 8, .slept 16, .sessionStopped ⟨2, 42, false, true⟩]))
    ∧ (runAuth (fun i => if i = 5 then AttemptResult.success
          else AttemptResult.authBytesInvalid) 0 6
       = ([1, 2, 4, 8, 16], .imported 5)
     ∧ generate_media_session ⟨[], 1, 7, false⟩ 42
         (fun i => if i = 5 then AttemptResult.success
          else AttemptResult.authBytesInvalid) 2
       = (.ok (⟨2, 42, false, true⟩, ⟨[(2, ⟨2, 42, false, true⟩)], 1, 7, false⟩),
          [.sessionStarted ⟨2, 42, false, true⟩, .slept 1, .slept 2, .slept 4,
           .slept 8, .slept 16])) :=
  ⟨⟨rfl, rfl⟩, ⟨rfl, rfl⟩⟩

/-- Counterexample to C4 as stated: exhausting all 6 attempts with a
generic transport error (`RPCError`) does not escalate — the call returns
`ok` and caches the session even though no authorization import ever
succeeded. -/
theorem generate_media_session_exhausted_returns_session :
    (runAuth (fun _ => AttemptResult.rpcError) 0 6).2 = .exhausted
    ∧ generate_media_session ⟨[], 1, 7, false⟩ 42 (fun _ => AttemptResult.rpcError) 2
      = (.ok (⟨2, 42, false, true⟩, ⟨[(2, ⟨2, 42, false, true⟩)], 1, 7, false⟩),
         [.sessionStarted ⟨2, 42, false, true⟩, .slept 1, .slept 1, .slept 1,
          .slept 1, .slept 1, .slept 1]) :=
  ⟨rfl, rfl⟩

/-- Claim C4 (amended): on a cross-endpoint cache miss, the call escalates
to the auth failure exactly when the import loop ends with the
`AuthBytesInvalid` re-raise, which can only happen when attempt index 5
failed with invalid authorization bytes; when the 6-attempt budget is
exhausted by rate-limit or other transport errors instead, no attempt
succeeded and yet the call returns `ok`, caching the session whose
authorization import never succeeded. -/
theorem generate_media_session_escalation (st : ClientState) (freshAuthKey : Nat)
    (outcome : Nat → AttemptResult) (dcId : Int)
    (hmiss : sessionLookup st.mediaSessions dcId = none)
    (hcross : dcId ≠ st.storageDcId) :
    ((runAuth outcome 0 6).2 = .raisedAuthFailure →
      (generate_media_session st freshAuthKey outcome dcId).1 = .error ()
      ∧ outcome 5 = .authBytesInvalid)
    ∧ ((runAuth outcome 0 6).2 = .exhausted →
      (∀ i, i < 6 → outcome i ≠ .success)
      ∧ (generate_media_session st freshAuthKey outcome dcId).1
        = .ok (⟨dcId, freshAuthKey, st.storageTestMode, true⟩,
           { st with mediaSessions := (sessionInsert st.mediaSessions dcId
               ⟨dcId, freshAuthKey, st.storageTestMode, true⟩) })) := by
  constructor
  · intro hr
    constructor
    · simp [generate_media_session, hmiss, hcross, hr]
    · exact runAuth_raised_authBytesInvalid outcome 6 0 hr
  · intro he
    constructor
    · intro i hi
      exact runAuth_exhausted_no_success outcome 6 0 he i (by omega) (by omega)
    · simp [generate_media_session, hmiss, hcross, he]

/-- Witness for C4 (amended), at the all-`RPCError` and all-`AuthBytesInvalid`
oracles on an empty session map with home endpoint 1 and target endpoint 2. -/
theorem generate_media_session_escalation_witness :
    ((generate_media_session ⟨[], 1, 7, false⟩ 42
        (fun _ => AttemptResult.authBytesInvalid) 2).1 = .error ()
     ∧ (fun _ => AttemptResult.authBytesInvalid) 5 = AttemptResult.authBytesInvalid)
    ∧ ((∀ i, i < 6 → (fun _ => AttemptResult.rpcError) i ≠ AttemptResult.success)
     ∧ (generate_media_session ⟨[], 1, 7, false⟩ 42
          (fun _ => AttemptResult.rpcError) 2).1
       = .ok (⟨2, 42, false, true⟩, ⟨[(2, ⟨2, 42, false, true⟩)], 1, 7, false⟩)) :=
  ⟨(generate_media_session_escalation ⟨[], 1, 7, false⟩ 42
      (fun _ => AttemptResult.authBytesInvalid) 2 rfl (by decide)).1 rfl,
   (generate_media_session_escalation ⟨[], 1, 7, false⟩ 42
      (fun _ => AttemptResult.rpcError) 2 rfl (by decide)).2 rfl⟩

/-- Claim C9: a cached session for the endpoint id is returned as-is with no
session created or started (empty event trace); on a miss at the home
endpoint the session is built from the stored home credential, started and
cached; and on any miss, whenever the call returns normally the returned
session is stored in the map under the endpoint id. -/
theorem generate_media_session_cache (st : ClientState) (freshAuthKey : Nat)
    (outcome : Nat → AttemptResult) (dcId : Int) :
    (∀ s, sessionLookup st.mediaSessions dcId = some s →
       generate_media_session st freshAuthKey outcome dcId = (.ok (s, st), []))
    ∧ (sessionLookup st.mediaSessions dcId = none → dcId = st.storageDcId →
       generate_media_session st freshAuthKey outcome dcId
         = (.ok (⟨dcId, st.storageAuthKey, st.storageTestMode, true⟩,
             { st with mediaSessions := (sessionInsert st.mediaSessions dcId
                 ⟨dcId, st.storageAuthKey, st.storageTestMode, true⟩) }),
            [.sessionStarted ⟨dcId, st.storageAuthKey, st.storageTestMode, true⟩]))
    ∧ (∀ s st2, sessionLookup st.mediaSessions dcId = none →
       (generate_media_session st freshAuthKey outcome dcId).1 = .ok (s, st2) →
       sessionLookup st2.mediaSessions dcId = some s) := by
  refine ⟨fun s hs => ?_, fun hmiss hhome => ?_, fun s st2 hmiss hok => ?_⟩
  · simp [generate_media_session, hs]
  · subst hhome
    simp [generate_media_session, hmiss]
  · by_cases hhome : dcId = st.storageDcId
    · subst hhome
      simp [generate_media_session, hmiss] at hok
      obtain ⟨rfl, rfl⟩ := hok
      exact sessionLookup_sessionInsert_self ..
    · cases hr : (runAuth outcome 0 6).2 with
      | imported a =>
        simp [generate_media_session, hmiss, hhome, hr] at hok
        obtain ⟨rfl, rfl⟩ := hok
        exact sessionLookup_sessionInsert_self ..
      | raisedAuthFailure =>
        simp [generate_media_session, hmiss, hhome, hr] at hok
      | exhausted =>
        simp [generate_media_session, hmiss, hhome, hr] at hok
        obtain ⟨rfl, rfl⟩ := hok
        exact sessionLookup_sessionInsert_self ..

/-- Witness for C9: a cache hit returns the stored session with an empty
trace; a home-endpoint miss builds from the stored credential; and a
cross-endpoint miss imported at attempt 0 leaves the session in the map. -/
theorem generate_media_session_cache_witness :
    generate_media_session ⟨[(2, ⟨2, 9, false, true⟩)], 1, 7, false⟩ 42
      (fun _ => AttemptResult.success) 2
      = (.ok (⟨2, 9, false, true⟩, ⟨[(2, ⟨2, 9, false, true⟩)], 1, 7, false⟩), [])
    ∧ generate_media_session ⟨[], 1, 7, false⟩ 42 (fun _ => AttemptResult.success) 1
      = (.ok (⟨1, 7, false, true⟩, ⟨[(1, ⟨1, 7, false, true⟩)], 1, 7, false⟩),
         [.sessionStarted ⟨1, 7, false, true⟩])
    ∧ sessionLookup [(2, ⟨2, 42, false, true⟩)] 2 = some ⟨2, 42, false, true⟩ :=
  ⟨(generate_media_session_cache ⟨[(2, ⟨2, 9, false, true⟩)], 1, 7, false⟩ 42
      (fun _ => AttemptResult.success) 2).1 ⟨2, 9, false, true⟩ rfl,
   (generate_media_session_cache ⟨[], 1, 7, false⟩ 42
      (fun _ => AttemptResult.success) 1).2.1 rfl rfl,
   (generate_media_session_cache ⟨[], 1, 7, false⟩ 42
      (fun _ => AttemptResult.success) 2).2.2 ⟨2, 42, false, true⟩
     ⟨[(2, ⟨2, 42, false, true⟩)], 1, 7, false⟩ rfl rfl⟩

/-- Claim C1 (amended): `work_loads[index]` is incremented once when the
generator starts; on every exit taken after the fetch loop is entered
(normal completion, a stop, a chunk-fetch error, early consumer
cancellation) it is decremented exactly once, returning the counter to its
pre-stream value; but an error raised during session resolution or locator
resolution escapes before the `try`/`finally` and leaves the counter
incremented with no decrement. -/
theorem yield_file_load_accounting (sessionOk : Bool) (fetch : Nat → FetchResult)
    (offset : Nat) (firstCut lastCut : Int) (partCount chunkSize budget fuel : Nat) :
    (sessionOk = true →
      (yield_file sessionOk fetch offset firstCut lastCut partCount chunkSize
          budget fuel).2 ≠ .fuelOut →
      countInc (yield_file sessionOk fetch offset firstCut lastCut partCount chunkSize
          budget fuel).1 = 1
      ∧ countDec (yield_file sessionOk fetch offset firstCut lastCut partCount chunkSize
          budget fuel).1 = 1)
    ∧ (sessionOk = false →
      yield_file sessionOk fetch offset firstCut lastCut partCount chunkSize budget fuel
        = ([StreamEvent.inc], .sessionError)) := by
  constructor
  · intro hs hout
    subst hs
    have hnd := streamLoop_no_inc_dec fetch firstCut lastCut partCount chunkSize
      fuel 1 offset 0 budget
    rcases h : streamLoop fetch firstCut lastCut partCount chunkSize 1 offset 0 budget fuel
      with ⟨evs, out⟩
    rw [h] at hnd
    simp only [countInc, countDec] at hnd
    cases out with
    | fuelOut => simp [yield_file, h] at hout
    | completed =>
      simp [yield_file, h, countInc, countDec, List.countP_cons, List.countP_append,
        hnd.1, hnd.2]
    | cancelled =>
      simp [yield_file, h, countInc, countDec, List.countP_cons, List.countP_append,
        hnd.1, hnd.2]
    | transportError =>
      simp [yield_file, h, countInc, countDec, List.countP_cons, List.countP_append,
        hnd.1, hnd.2]
    | sessionError =>
      simp [yield_file, h, countInc, countDec, List.countP_cons, List.countP_append,
        hnd.1, hnd.2]
    | rateLimited w =>
      simp [yield_file, h, countInc, countDec, List.countP_cons, List.countP_append,
        hnd.1, hnd.2]
  · intro hs
    subst hs
    simp [yield_file]

/-- Witness for C1 (amended): a one-part run that completes normally has
exactly one increment and one decrement; a run whose session resolution
fails ends with the lone increment. -/
theorem yield_file_load_accounting_witness :
    (countInc (yield_file true (fun _ => FetchResult.file [9]) 0 0 1 1 4 0 3).1 = 1
     ∧ countDec (yield_file true (fun _ => FetchResult.file [9]) 0 0 1 1 4 0 3).1 = 1)
    ∧ yield_file false (fun _ => FetchResult.file [9]) 0 0 1 1 4 0 3
      = ([StreamEvent.inc], .sessionError) :=
  ⟨(yield_file_load_accounting true (fun _ => FetchResult.file [9]) 0 0 1 1 4 0 3).1
     rfl (by decide),
   (yield_file_load_accounting false (fun _ => FetchResult.file [9]) 0 0 1 1 4 0 3).2 rfl⟩

/-- Counterexample to C1 as stated: when session resolution raises, the
stream exits with the load counter incremented and never decremented, so
it does not end at its pre-stream value. -/
theorem yield_file_load_leak_on_session_error :
    yield_file false (fun _ => FetchResult.unexpected) 0 0 0 1 1 0 5
      = ([StreamEvent.inc], .sessionError)
    ∧ countInc [StreamEvent.inc] = 1
    ∧ countDec [StreamEvent.inc] = 0 :=
  ⟨rfl, rfl, rfl⟩

set_option maxRecDepth 8192 in
/-- Claim C3: the emitted slice is `chunk[firstCut:lastCut]` when
`partCount = 1`, `chunk[firstCut:]` for the first of multiple parts,
`chunk[:lastCut]` for the last part, and the full chunk otherwise; the
buffer `yield_file` emits for a fetched chunk is exactly this slice; and
with `partCount = 1`, cuts 100/900 over a 1024-byte chunk, exactly one
800-byte slice equal to `chunk[100:900]` is emitted. -/
theorem yield_file_slicing :
    (∀ (partCount currentPart : Nat) (firstCut lastCut : Int) (chunk : List Nat),
      (partCount = 1 →
        sliceFor partCount currentPart firstCut lastCut chunk
          = pySlice chunk firstCut lastCut)
      ∧ (partCount ≠ 1 → currentPart = 1 →
        sliceFor partCount currentPart firstCut lastCut chunk = pySliceFrom chunk firstCut)
      ∧ (partCount ≠ 1 → currentPart ≠ 1 → currentPart = partCount →
        sliceFor partCount currentPart firstCut lastCut chunk = pySliceTo chunk lastCut)
      ∧ (partCount ≠ 1 → currentPart ≠ 1 → currentPart ≠ partCount →
        sliceFor partCount currentPart firstCut lastCut chunk = chunk))
    ∧ (∀ (fetch : Nat → FetchResult) (firstCut lastCut : Int)
        (partCount chunkSize currentPart offset fi budget fuel : Nat) (chunk : List Nat),
        currentPart ≤ partCount → fetch fi = .file chunk → chunk ≠ [] →
        ∃ rest out,
          streamLoop fetch firstCut lastCut partCount chunkSize currentPart offset fi
              budget (fuel + 1)
            = (StreamEvent.yielded (sliceFor partCount currentPart firstCut lastCut chunk)
                :: rest, out))
    ∧ (yield_file true (fun _ => FetchResult.file chunk1024) 0 100 900 1 1024 0 2
        = ([StreamEvent.inc, StreamEvent.yielded (pySlice chunk1024 100 900),
            StreamEvent.dec], .completed)
      ∧ (pySlice chunk1024 100 900).length = 800
      ∧ pySlice chunk1024 100 900 = (chunk1024.drop 100).take 800) := by
  refine ⟨fun pc cp fc lc chunk =>
      ⟨fun h1 => ?_, fun h1 h2 => ?_, fun h1 h2 h3 => ?_, fun h1 h2 h3 => ?_⟩,
    fun fetch fc lc pc cs cp off fi budget fuel chunk hcp hf hc => ?_, ?_, ?_, ?_⟩
  · simp [sliceFor, h1]
  · simp [sliceFor, h1, h2]
  · simp [sliceFor, h1, h2, h3]
  · simp [sliceFor, h1, h2, h3]
  · by_cases hb : budget = 1
    · refine ⟨[], .cancelled, ?_⟩
      simp [streamLoop, hcp, hf, hc, hb]
    · refine ⟨(streamLoop fetch fc lc pc cs (cp + 1) (off + cs) (fi + 1) (budget - 1)
          fuel).1,
        (streamLoop fetch fc lc pc cs (cp + 1) (off + cs) (fi + 1) (budget - 1) fuel).2,
        ?_⟩
      simp [streamLoop, hcp, hf, hc, hb]
  · rfl
  · rfl
  · rfl

/-- Witness for C3: the four slicing branches at concrete inputs, and the
emitted buffer of a two-part stream's first fetch. -/
theorem yield_file_slicing_witness :
    sliceFor 1 1 2 5 [0, 1, 2, 3, 4, 5, 6] = pySlice [0, 1, 2, 3, 4, 5, 6] 2 5
    ∧ sliceFor 3 1 2 5 [0, 1, 2] = pySliceFrom [0, 1, 2] 2
    ∧ sliceFor 3 3 2 5 [0, 1, 2] = pySliceTo [0, 1, 2] 5
    ∧ sliceFor 3 2 2 5 [0, 1, 2] = [0, 1, 2]
    ∧ ∃ rest out,
        streamLoop (fun _ => FetchResult.file [9]) 0 1 2 1 1 0 0 0 (0 + 1)
          = (StreamEvent.yielded (sliceFor 2 1 0 1 [9]) :: rest, out) :=
  ⟨(yield_file_slicing.1 1 1 2 5 [0, 1, 2, 3, 4, 5, 6]).1 rfl,
   (yield_file_slicing.1 3 1 2 5 [0, 1, 2]).2.1 (by decide) rfl,
   (yield_file_slicing.1 3 3 2 5 [0, 1, 2]).2.2.1 (by decide) (by decide) rfl,
   (yield_file_slicing.1 3 2 2 5 [0, 1, 2]).2.2.2 (by decide) (by decide) (by decide),
   yield_file_slicing.2.1 (fun _ => FetchResult.file [9]) 0 1 2 1 1 0 0 0 0 [9]
     (by decide) rfl (by decide)⟩

/-- Claim C8: a fetch that hits `FloodWait w` sleeps exactly `w + 1`
seconds and retries with `currentPart` and `offset` unchanged, and the
rate-limit signal is never surfaced as the stream's outcome. -/
theorem yield_file_floodwait_retry (fetch : Nat → FetchResult) (firstCut lastCut : Int)
    (partCount chunkSize currentPart offset fi budget fuel w : Nat)
    (hcp : currentPart ≤ partCount) (hf : fetch fi = .floodWait w) :
    streamLoop fetch firstCut lastCut partCount chunkSize currentPart offset fi budget
        (fuel + 1)
      = (StreamEvent.slept (w + 1)
          :: (streamLoop fetch firstCut lastCut partCount chunkSize currentPart offset
              (fi + 1) budget fuel).1,
         (streamLoop fetch firstCut lastCut partCount chunkSize currentPart offset
             (fi + 1) budget fuel).2)
    ∧ (∀ (sOk : Bool) (off0 pc0 cs0 bud0 fl0 w' : Nat) (fc0 lc0 : Int),
        (yield_file sOk fetch off0 fc0 lc0 pc0 cs0 bud0 fl0).2 ≠ .rateLimited w') := by
  constructor
  · simp [streamLoop, hcp, hf]
  · intro sOk off0 pc0 cs0 bud0 fl0 w' fc0 lc0
    cases sOk with
    | false => simp [yield_file]
    | true =>
      rcases h : streamLoop fetch fc0 lc0 pc0 cs0 1 off0 0 bud0 fl0 with ⟨evs, out⟩
      cases out with
      | rateLimited w0 =>
        exact absurd (by rw [h])
          (streamLoop_ne_rateLimited fetch fc0 lc0 pc0 cs0 fl0 1 off0 0 bud0 w0)
      | fuelOut => simp [yield_file, h]
      | completed => simp [yield_file, h]
      | cancelled => simp [yield_file, h]
      | transportError => simp [yield_file, h]
      | sessionError => simp [yield_file, h]

/-- Witness for C8, the spec's `w = 3` scenario: the sleep is exactly 4
seconds, the retry re-enters the loop at the same part and offset, and a
full run never ends rate-limited. -/
theorem yield_file_floodwait_retry_witness :
    streamLoop floodFetch 0 1 1 4 1 0 0 0 (1 + 1)
      = (StreamEvent.slept 4 :: (streamLoop floodFetch 0 1 1 4 1 0 1 0 1).1,
         (streamLoop floodFetch 0 1 1 4 1 0 1 0 1).2)
    ∧ (yield_file true floodFetch 0 0 1 1 4 0 5).2 ≠ .rateLimited 3 :=
  ⟨(yield_file_floodwait_retry floodFetch 0 1 1 4 1 0 0 0 1 3 (by decide) rfl).1,
   (yield_file_floodwait_retry floodFetch 0 1 1 4 1 0 0 0 1 3 (by decide) rfl).2
     true 0 1 4 0 5 3 0 1⟩

/-- Claim C10: a `yield_file` run emits at most `partCount` buffers, and
the slicing step is total with the emitted slice never longer than the
fetched chunk, for arbitrary integer cut values (Python slice clamping). -/
theorem yield_file_safety (sessionOk : Bool) (fetch : Nat → FetchResult) (offset : Nat)
    (firstCut lastCut : Int) (partCount chunkSize budget fuel : Nat) :
    countYields (yield_file sessionOk fetch offset firstCut lastCut partCount chunkSize
        budget fuel).1 ≤ partCount
    ∧ ∀ (a b : Int) (chunk : List Nat) (cp : Nat),
        (sliceFor partCount cp a b chunk).length ≤ chunk.length := by
  constructor
  · cases sessionOk with
    | false => simp [yield_file, countYields]
    | true =>
      have h := countYields_streamLoop_le fetch firstCut lastCut partCount chunkSize
        fuel 1 offset 0 budget
      rcases hs : streamLoop fetch firstCut lastCut partCount chunkSize 1 offset 0
        budget fuel with ⟨evs, out⟩
      rw [hs] at h
      simp only [countYields] at h
      cases out <;>
        simp [yield_file, hs, countYields, List.countP_cons, List.countP_append] <;>
        omega
  · intro a b chunk cp
    exact sliceFor_length_le ..

end Thunder
